import Mathlib

/-!
Verification of the Emoticon gesture-detection core against its
natural-language specification.

The embedding follows `src/app.py`:
* `Landmark` / `LandmarkFrame` model the MediaPipe landmark list
  (normalized rational coordinates; the source compares Python floats,
  modelled here with `ℚ`).
* Gesture predicates are the lambda expressions of the `GESTURES` table,
  embedded as small expression trees (`GExpr`, `GPred`) whose evaluator
  returns `none` exactly when Python indexing would raise `IndexError`
  (a landmark index beyond the frame length); Python's short-circuiting
  `and` is mirrored by `GPred.conj`.
* `detectLoop` is the per-frame detection loop of the webcam path
  (app.py lines 459-473) with its cooldown bookkeeping
  (`last_detected` / `last_detect_time`, app.py lines 152-155).
* `detectImage` is the image-upload detection loop (app.py lines 523-546).
-/

structure Landmark where
  x : ℚ
  y : ℚ
  z : ℚ
deriving DecidableEq, Repr

abbrev LandmarkFrame := List Landmark

/-- Scalar expressions appearing in the gesture lambdas of `app.py`:
landmark coordinate accesses `lm[i].x/.y/.z`, rational constants, and
arithmetic on them. -/
inductive GExpr where
  | c (q : ℚ)
  | lx (i : Nat)
  | ly (i : Nat)
  | lz (i : Nat)
  | add (a b : GExpr)
  | sub (a b : GExpr)
  | div (a b : GExpr)
  | abs (a : GExpr)
deriving DecidableEq, Repr

/-- Boolean gesture predicates: strict comparisons and Python's
short-circuiting `and`. -/
inductive GPred where
  | gt (a b : GExpr)
  | lt (a b : GExpr)
  | conj (a b : GPred)
deriving DecidableEq, Repr

/-- Evaluate a scalar expression on a frame.  `none` models the
`IndexError` Python raises when the accessed landmark index is not in
the frame; it propagates left to right as in Python. -/
def evalE (lm : LandmarkFrame) : GExpr → Option ℚ
  | .c q => some q
  | .lx i => (lm.get? i).map Landmark.x
  | .ly i => (lm.get? i).map Landmark.y
  | .lz i => (lm.get? i).map Landmark.z
  | .add a b =>
    match evalE lm a, evalE lm b with
    | some va, some vb => some (va + vb)
    | _, _ => none
  | .sub a b =>
    match evalE lm a, evalE lm b with
    | some va, some vb => some (va - vb)
    | _, _ => none
  | .div a b =>
    match evalE lm a, evalE lm b with
    | some va, some vb => some (va / vb)
    | _, _ => none
  | .abs a => (evalE lm a).map (fun q => |q|)

/-- Evaluate a gesture predicate on a frame.  `none` models a raised
exception; `conj` short-circuits exactly like Python's `and`. -/
def evalP (lm : LandmarkFrame) : GPred → Option Bool
  | .gt a b =>
    match evalE lm a, evalE lm b with
    | some va, some vb => some (decide (vb < va))
    | _, _ => none
  | .lt a b =>
    match evalE lm a, evalE lm b with
    | some va, some vb => some (decide (va < vb))
    | _, _ => none
  | .conj p q =>
    match evalP lm p with
    | some true => evalP lm q
    | some false => some false
    | none => none


/-- Entries 1-26 of the `GESTURES` table of `app.py`. -/
def GESTURES_A : List (String × GPred) := [
  ("raised left eyebrow", (GPred.gt (GExpr.sub (GExpr.ly 159) (GExpr.ly 65)) (GExpr.c 0.06))),
  ("raised right eyebrow", (GPred.gt (GExpr.sub (GExpr.ly 386) (GExpr.ly 295)) (GExpr.c 0.06))),
  ("mouth open", (GPred.gt (GExpr.abs (GExpr.sub (GExpr.ly 13) (GExpr.ly 14))) (GExpr.c 0.05))),
  ("frown", (GPred.lt (GExpr.abs (GExpr.sub (GExpr.lx 61) (GExpr.lx 291))) (GExpr.c 0.035))),
  ("pursed lips", (GPred.lt (GExpr.abs (GExpr.sub (GExpr.lx 61) (GExpr.lx 291))) (GExpr.c 0.025))),
  ("smirk left", (GPred.gt (GExpr.ly 61) (GExpr.add (GExpr.ly 291) (GExpr.c 0.015)))),
  ("smirk right", (GPred.gt (GExpr.ly 291) (GExpr.add (GExpr.ly 61) (GExpr.c 0.015)))),
  ("cheek puff", (GPred.gt (GExpr.abs (GExpr.sub (GExpr.lx 50) (GExpr.lx 280))) (GExpr.c 0.25))),
  ("nostril flare", (GPred.gt (GExpr.abs (GExpr.sub (GExpr.lx 94) (GExpr.lx 331))) (GExpr.c 0.05))),
  ("lip bite", (GPred.conj (GPred.lt (GExpr.abs (GExpr.sub (GExpr.ly 13) (GExpr.ly 14))) (GExpr.c 0.008)) (GPred.lt (GExpr.abs (GExpr.sub (GExpr.lx 61) (GExpr.lx 291))) (GExpr.c 0.01)))),
  ("brow furrow", (GPred.lt (GExpr.abs (GExpr.sub (GExpr.lx 65) (GExpr.lx 295))) (GExpr.c 0.03))),
  ("brow lift", (GPred.lt (GExpr.div (GExpr.add (GExpr.ly 65) (GExpr.ly 295)) (GExpr.c 2)) (GExpr.sub (GExpr.ly 10) (GExpr.c 0.03)))),
  ("eye roll up", (GPred.lt (GExpr.ly 468) (GExpr.sub (GExpr.ly 474) (GExpr.c 0.02)))),
  ("eye roll down", (GPred.gt (GExpr.ly 468) (GExpr.add (GExpr.ly 474) (GExpr.c 0.02)))),
  ("chin thrust forward", (GPred.lt (GExpr.lz 152) (GExpr.c (-0.1)))),
  ("chin tuck", (GPred.gt (GExpr.lz 152) (GExpr.c 0.1))),
  ("eye blink left", (GPred.lt (GExpr.abs (GExpr.sub (GExpr.ly 159) (GExpr.ly 145))) (GExpr.c 0.005))),
  ("eye blink right", (GPred.lt (GExpr.abs (GExpr.sub (GExpr.ly 386) (GExpr.ly 374))) (GExpr.c 0.005))),
  ("eyes wide open", (GPred.gt (GExpr.abs (GExpr.sub (GExpr.ly 159) (GExpr.ly 145))) (GExpr.c 0.035))),
  ("glare left", (GPred.gt (GExpr.sub (GExpr.lx 33) (GExpr.lx 133)) (GExpr.c 0.02))),
  ("glare right", (GPred.gt (GExpr.sub (GExpr.lx 263) (GExpr.lx 362)) (GExpr.c 0.02))),
  ("glare up", (GPred.lt (GExpr.div (GExpr.add (GExpr.ly 159) (GExpr.ly 386)) (GExpr.c 2)) (GExpr.sub (GExpr.div (GExpr.add (GExpr.ly 145) (GExpr.ly 374)) (GExpr.c 2)) (GExpr.c 0.02)))),
  ("glare down", (GPred.gt (GExpr.div (GExpr.add (GExpr.ly 159) (GExpr.ly 386)) (GExpr.c 2)) (GExpr.add (GExpr.div (GExpr.add (GExpr.ly 145) (GExpr.ly 374)) (GExpr.c 2)) (GExpr.c 0.02)))),
  ("brows raised and mouth open", (GPred.conj (GPred.gt (GExpr.sub (GExpr.ly 159) (GExpr.ly 65)) (GExpr.c 0.03)) (GPred.gt (GExpr.abs (GExpr.sub (GExpr.ly 13) (GExpr.ly 14))) (GExpr.c 0.04)))),
  ("brows lowered and lips pressed", (GPred.conj (GPred.lt (GExpr.sub (GExpr.ly 159) (GExpr.ly 65)) (GExpr.c 0.01)) (GPred.lt (GExpr.abs (GExpr.sub (GExpr.ly 13) (GExpr.ly 14))) (GExpr.c 0.01)))),
  ("eye squint left", (GPred.lt (GExpr.abs (GExpr.sub (GExpr.ly 159) (GExpr.ly 145))) (GExpr.c 0.007)))]

/-- Entries 27-52 of the `GESTURES` table of `app.py`. -/
def GESTURES_B : List (String × GPred) := [
  ("eye squint right", (GPred.lt (GExpr.abs (GExpr.sub (GExpr.ly 386) (GExpr.ly 374))) (GExpr.c 0.007))),
  ("jaw drop", (GPred.gt (GExpr.abs (GExpr.sub (GExpr.ly 152) (GExpr.ly 13))) (GExpr.c 0.15))),
  ("head tilt left", (GPred.gt (GExpr.sub (GExpr.ly 234) (GExpr.ly 454)) (GExpr.c 0.03))),
  ("head tilt right", (GPred.gt (GExpr.sub (GExpr.ly 454) (GExpr.ly 234)) (GExpr.c 0.03))),
  ("head turn right", (GPred.lt (GExpr.lx 454) (GExpr.sub (GExpr.lx 234) (GExpr.c 0.05)))),
  ("head turn down", (GPred.gt (GExpr.ly 10) (GExpr.add (GExpr.ly 152) (GExpr.c 0.08)))),
  ("nose wrinkle", (GPred.lt (GExpr.abs (GExpr.sub (GExpr.ly 6) (GExpr.ly 168))) (GExpr.c 0.02))),
  ("brow raise + smile", (GPred.conj (GPred.gt (GExpr.sub (GExpr.ly 159) (GExpr.ly 65)) (GExpr.c 0.1)) (GPred.gt (GExpr.abs (GExpr.sub (GExpr.lx 61) (GExpr.lx 291))) (GExpr.c 0.08)))),
  ("brow furrow + frown", (GPred.conj (GPred.lt (GExpr.abs (GExpr.sub (GExpr.lx 65) (GExpr.lx 295))) (GExpr.c 0.03)) (GPred.lt (GExpr.abs (GExpr.sub (GExpr.lx 61) (GExpr.lx 291))) (GExpr.c 0.035)))),
  ("mouth open + head tilt", (GPred.conj (GPred.gt (GExpr.abs (GExpr.sub (GExpr.ly 13) (GExpr.ly 14))) (GExpr.c 0.04)) (GPred.gt (GExpr.abs (GExpr.sub (GExpr.ly 234) (GExpr.ly 454))) (GExpr.c 0.03)))),
  ("subtle smile", (GPred.conj (GPred.gt (GExpr.abs (GExpr.sub (GExpr.lx 61) (GExpr.lx 291))) (GExpr.c 0.04)) (GPred.lt (GExpr.abs (GExpr.sub (GExpr.lx 61) (GExpr.lx 291))) (GExpr.c 0.06)))),
  ("wide smile", (GPred.gt (GExpr.abs (GExpr.sub (GExpr.lx 61) (GExpr.lx 291))) (GExpr.c 0.08))),
  ("half smile left", (GPred.gt (GExpr.lx 61) (GExpr.add (GExpr.lx 291) (GExpr.c 0.02)))),
  ("half smile right", (GPred.gt (GExpr.lx 291) (GExpr.add (GExpr.lx 61) (GExpr.c 0.02)))),
  ("lip compression", (GPred.lt (GExpr.abs (GExpr.sub (GExpr.ly 13) (GExpr.ly 14))) (GExpr.c 0.003))),
  ("lip protrusion", (GPred.lt (GExpr.lz 13) (GExpr.c (-0.02)))),
  ("mouth corner down left", (GPred.gt (GExpr.ly 61) (GExpr.add (GExpr.ly 13) (GExpr.c 0.01)))),
  ("mouth corner down right", (GPred.gt (GExpr.ly 291) (GExpr.add (GExpr.ly 13) (GExpr.c 0.01)))),
  ("mouth corner up left", (GPred.lt (GExpr.ly 61) (GExpr.sub (GExpr.ly 13) (GExpr.c 0.01)))),
  ("mouth corner up right", (GPred.lt (GExpr.ly 291) (GExpr.sub (GExpr.ly 13) (GExpr.c 0.01)))),
  ("upper lip raise", (GPred.lt (GExpr.ly 12) (GExpr.sub (GExpr.ly 15) (GExpr.c 0.01)))),
  ("lower lip depress", (GPred.gt (GExpr.ly 15) (GExpr.add (GExpr.ly 17) (GExpr.c 0.01)))),
  ("cheek raise left", (GPred.lt (GExpr.ly 116) (GExpr.sub (GExpr.ly 117) (GExpr.c 0.01)))),
  ("cheek raise right", (GPred.lt (GExpr.ly 345) (GExpr.sub (GExpr.ly 346) (GExpr.c 0.01)))),
  ("eye narrow left", (GPred.lt (GExpr.abs (GExpr.sub (GExpr.ly 159) (GExpr.ly 145))) (GExpr.c 0.01))),
  ("eye narrow right", (GPred.lt (GExpr.abs (GExpr.sub (GExpr.ly 386) (GExpr.ly 374))) (GExpr.c 0.01)))]

/-- Entries 53-78 of the `GESTURES` table of `app.py`. -/
def GESTURES_C : List (String × GPred) := [
  ("eye widen left", (GPred.gt (GExpr.abs (GExpr.sub (GExpr.ly 159) (GExpr.ly 145))) (GExpr.c 0.025))),
  ("eye widen right", (GPred.gt (GExpr.abs (GExpr.sub (GExpr.ly 386) (GExpr.ly 374))) (GExpr.c 0.025))),
  ("eyebrow flash", (GPred.gt (GExpr.sub (GExpr.ly 159) (GExpr.ly 65)) (GExpr.c 0.08))),
  ("forehead furrow", (GPred.lt (GExpr.abs (GExpr.sub (GExpr.ly 10) (GExpr.ly 151))) (GExpr.c 0.08))),
  ("temple tension", (GPred.lt (GExpr.abs (GExpr.sub (GExpr.lx 162) (GExpr.lx 389))) (GExpr.c 0.15))),
  ("jaw clench", (GPred.lt (GExpr.abs (GExpr.sub (GExpr.ly 172) (GExpr.ly 397))) (GExpr.c 0.02))),
  ("mouth twist left", (GPred.lt (GExpr.lx 61) (GExpr.sub (GExpr.lx 291) (GExpr.c 0.03)))),
  ("mouth twist right", (GPred.lt (GExpr.lx 291) (GExpr.sub (GExpr.lx 61) (GExpr.c 0.03)))),
  ("nostril compress", (GPred.lt (GExpr.abs (GExpr.sub (GExpr.lx 94) (GExpr.lx 331))) (GExpr.c 0.03))),
  ("nostril dilate", (GPred.gt (GExpr.abs (GExpr.sub (GExpr.lx 94) (GExpr.lx 331))) (GExpr.c 0.06))),
  ("chin dimple", (GPred.gt (GExpr.ly 175) (GExpr.add (GExpr.ly 199) (GExpr.c 0.01)))),
  ("chin raise", (GPred.lt (GExpr.ly 175) (GExpr.sub (GExpr.ly 199) (GExpr.c 0.01)))),
  ("head shake", (GPred.gt (GExpr.abs (GExpr.sub (GExpr.lx 234) (GExpr.lx 454))) (GExpr.c 0.1))),
  ("head nod", (GPred.gt (GExpr.abs (GExpr.sub (GExpr.ly 10) (GExpr.ly 152))) (GExpr.c 0.12))),
  ("ear wiggle left", (GPred.gt (GExpr.lz 234) (GExpr.c 0.05))),
  ("ear wiggle right", (GPred.gt (GExpr.lz 454) (GExpr.c 0.05))),
  ("eye flutter left", (GPred.lt (GExpr.abs (GExpr.sub (GExpr.ly 159) (GExpr.ly 145))) (GExpr.c 0.003))),
  ("eye flutter right", (GPred.lt (GExpr.abs (GExpr.sub (GExpr.ly 386) (GExpr.ly 374))) (GExpr.c 0.003))),
  ("micro smile", (GPred.conj (GPred.gt (GExpr.abs (GExpr.sub (GExpr.lx 61) (GExpr.lx 291))) (GExpr.c 0.025)) (GPred.lt (GExpr.abs (GExpr.sub (GExpr.lx 61) (GExpr.lx 291))) (GExpr.c 0.035)))),
  ("micro frown", (GPred.lt (GExpr.abs (GExpr.sub (GExpr.lx 61) (GExpr.lx 291))) (GExpr.c 0.02))),
  ("eyebrow twitch left", (GPred.conj (GPred.gt (GExpr.sub (GExpr.ly 159) (GExpr.ly 65)) (GExpr.c 0.04)) (GPred.lt (GExpr.sub (GExpr.ly 159) (GExpr.ly 65)) (GExpr.c 0.05)))),
  ("eyebrow twitch right", (GPred.conj (GPred.gt (GExpr.sub (GExpr.ly 386) (GExpr.ly 295)) (GExpr.c 0.04)) (GPred.lt (GExpr.sub (GExpr.ly 386) (GExpr.ly 295)) (GExpr.c 0.05)))),
  ("lip twitch left", (GPred.lt (GExpr.ly 61) (GExpr.sub (GExpr.ly 291) (GExpr.c 0.005)))),
  ("lip twitch right", (GPred.lt (GExpr.ly 291) (GExpr.sub (GExpr.ly 61) (GExpr.c 0.005)))),
  ("eye contact direct", (GPred.lt (GExpr.abs (GExpr.sub (GExpr.lx 468) (GExpr.lx 473))) (GExpr.c 0.01))),
  ("eye contact avoidance", (GPred.gt (GExpr.abs (GExpr.sub (GExpr.lx 468) (GExpr.lx 473))) (GExpr.c 0.03)))]

/-- Entries 79-104 of the `GESTURES` table of `app.py`. -/
def GESTURES_D : List (String × GPred) := [
  ("pupil dilation", (GPred.gt (GExpr.abs (GExpr.sub (GExpr.ly 468) (GExpr.ly 473))) (GExpr.c 0.02))),
  ("pupil constriction", (GPred.lt (GExpr.abs (GExpr.sub (GExpr.ly 468) (GExpr.ly 473))) (GExpr.c 0.005))),
  ("surprise full", (GPred.conj (GPred.gt (GExpr.sub (GExpr.ly 159) (GExpr.ly 65)) (GExpr.c 0.07)) (GPred.gt (GExpr.abs (GExpr.sub (GExpr.ly 13) (GExpr.ly 14))) (GExpr.c 0.06)))),
  ("disgust expression", (GPred.conj (GPred.lt (GExpr.ly 12) (GExpr.sub (GExpr.ly 15) (GExpr.c 0.02))) (GPred.lt (GExpr.abs (GExpr.sub (GExpr.ly 6) (GExpr.ly 168))) (GExpr.c 0.015)))),
  ("fear expression", (GPred.conj (GPred.gt (GExpr.abs (GExpr.sub (GExpr.ly 159) (GExpr.ly 145))) (GExpr.c 0.03)) (GPred.gt (GExpr.sub (GExpr.ly 159) (GExpr.ly 65)) (GExpr.c 0.05)))),
  ("anger expression", (GPred.conj (GPred.lt (GExpr.abs (GExpr.sub (GExpr.lx 65) (GExpr.lx 295))) (GExpr.c 0.025)) (GPred.lt (GExpr.abs (GExpr.sub (GExpr.lx 61) (GExpr.lx 291))) (GExpr.c 0.03)))),
  ("sadness expression", (GPred.conj (GPred.gt (GExpr.ly 61) (GExpr.add (GExpr.ly 13) (GExpr.c 0.015))) (GPred.gt (GExpr.ly 291) (GExpr.add (GExpr.ly 13) (GExpr.c 0.015))))),
  ("contempt left", (GPred.lt (GExpr.ly 61) (GExpr.sub (GExpr.ly 291) (GExpr.c 0.02)))),
  ("contempt right", (GPred.lt (GExpr.ly 291) (GExpr.sub (GExpr.ly 61) (GExpr.c 0.02)))),
  ("stress indicators", (GPred.conj (GPred.lt (GExpr.abs (GExpr.sub (GExpr.lx 65) (GExpr.lx 295))) (GExpr.c 0.025)) (GPred.lt (GExpr.abs (GExpr.sub (GExpr.ly 172) (GExpr.ly 397))) (GExpr.c 0.015)))),
  ("relaxed expression", (GPred.conj (GPred.gt (GExpr.abs (GExpr.sub (GExpr.ly 159) (GExpr.ly 145))) (GExpr.c 0.015)) (GPred.gt (GExpr.abs (GExpr.sub (GExpr.ly 13) (GExpr.ly 14))) (GExpr.c 0.01)))),
  ("concentration", (GPred.conj (GPred.lt (GExpr.abs (GExpr.sub (GExpr.lx 65) (GExpr.lx 295))) (GExpr.c 0.035)) (GPred.lt (GExpr.abs (GExpr.sub (GExpr.ly 159) (GExpr.ly 145))) (GExpr.c 0.012)))),
  ("confusion", (GPred.conj (GPred.gt (GExpr.sub (GExpr.ly 159) (GExpr.ly 65)) (GExpr.c 0.03)) (GPred.lt (GExpr.sub (GExpr.ly 386) (GExpr.ly 295)) (GExpr.c 0.02)))),
  ("skepticism", (GPred.conj (GPred.gt (GExpr.sub (GExpr.ly 159) (GExpr.ly 65)) (GExpr.c 0.04)) (GPred.lt (GExpr.abs (GExpr.sub (GExpr.lx 61) (GExpr.lx 291))) (GExpr.c 0.025)))),
  ("amusement", (GPred.conj (GPred.gt (GExpr.abs (GExpr.sub (GExpr.lx 61) (GExpr.lx 291))) (GExpr.c 0.06)) (GPred.lt (GExpr.abs (GExpr.sub (GExpr.ly 159) (GExpr.ly 145))) (GExpr.c 0.015)))),
  ("boredom", (GPred.conj (GPred.lt (GExpr.abs (GExpr.sub (GExpr.ly 159) (GExpr.ly 145))) (GExpr.c 0.008)) (GPred.lt (GExpr.abs (GExpr.sub (GExpr.ly 13) (GExpr.ly 14))) (GExpr.c 0.005)))),
  ("excitement", (GPred.conj (GPred.gt (GExpr.abs (GExpr.sub (GExpr.ly 159) (GExpr.ly 145))) (GExpr.c 0.025)) (GPred.gt (GExpr.abs (GExpr.sub (GExpr.lx 61) (GExpr.lx 291))) (GExpr.c 0.07)))),
  ("determination", (GPred.conj (GPred.lt (GExpr.abs (GExpr.sub (GExpr.lx 65) (GExpr.lx 295))) (GExpr.c 0.03)) (GPred.lt (GExpr.abs (GExpr.sub (GExpr.ly 172) (GExpr.ly 397))) (GExpr.c 0.02)))),
  ("nervousness", (GPred.conj (GPred.lt (GExpr.abs (GExpr.sub (GExpr.ly 159) (GExpr.ly 145))) (GExpr.c 0.006)) (GPred.gt (GExpr.ly 61) (GExpr.add (GExpr.ly 291) (GExpr.c 0.01))))),
  ("confidence", (GPred.conj (GPred.lt (GExpr.lz 152) (GExpr.c (-0.05))) (GPred.gt (GExpr.abs (GExpr.sub (GExpr.lx 61) (GExpr.lx 291))) (GExpr.c 0.05)))),
  ("insecurity", (GPred.conj (GPred.gt (GExpr.lz 152) (GExpr.c 0.05)) (GPred.gt (GExpr.abs (GExpr.sub (GExpr.ly 234) (GExpr.ly 454))) (GExpr.c 0.025)))),
  ("thoughtfulness", (GPred.conj (GPred.lt (GExpr.abs (GExpr.sub (GExpr.lx 65) (GExpr.lx 295))) (GExpr.c 0.04)) (GPred.gt (GExpr.ly 13) (GExpr.add (GExpr.ly 14) (GExpr.c 0.02))))),
  ("disbelief", (GPred.conj (GPred.gt (GExpr.sub (GExpr.ly 159) (GExpr.ly 65)) (GExpr.c 0.05)) (GPred.gt (GExpr.abs (GExpr.sub (GExpr.ly 13) (GExpr.ly 14))) (GExpr.c 0.03)))),
  ("empathy", (GPred.conj (GPred.gt (GExpr.abs (GExpr.sub (GExpr.lx 61) (GExpr.lx 291))) (GExpr.c 0.04)) (GPred.gt (GExpr.abs (GExpr.sub (GExpr.ly 159) (GExpr.ly 145))) (GExpr.c 0.02)))),
  ("curiosity", (GPred.conj (GPred.gt (GExpr.sub (GExpr.ly 159) (GExpr.ly 65)) (GExpr.c 0.045)) (GPred.lt (GExpr.ly 10) (GExpr.sub (GExpr.ly 152) (GExpr.c 0.06))))),
  ("anticipation", (GPred.conj (GPred.gt (GExpr.abs (GExpr.sub (GExpr.ly 159) (GExpr.ly 145))) (GExpr.c 0.02)) (GPred.gt (GExpr.abs (GExpr.sub (GExpr.ly 13) (GExpr.ly 14))) (GExpr.c 0.02))))]

/-- Entries 105-130 of the `GESTURES` table of `app.py`. -/
def GESTURES_E : List (String × GPred) := [
  ("relief", (GPred.conj (GPred.gt (GExpr.abs (GExpr.sub (GExpr.lx 61) (GExpr.lx 291))) (GExpr.c 0.05)) (GPred.gt (GExpr.abs (GExpr.sub (GExpr.ly 159) (GExpr.ly 145))) (GExpr.c 0.015)))),
  ("frustration", (GPred.conj (GPred.lt (GExpr.abs (GExpr.sub (GExpr.lx 65) (GExpr.lx 295))) (GExpr.c 0.025)) (GPred.lt (GExpr.abs (GExpr.sub (GExpr.ly 13) (GExpr.ly 14))) (GExpr.c 0.006)))),
  ("affection", (GPred.conj (GPred.gt (GExpr.abs (GExpr.sub (GExpr.lx 61) (GExpr.lx 291))) (GExpr.c 0.06)) (GPred.gt (GExpr.abs (GExpr.sub (GExpr.ly 159) (GExpr.ly 145))) (GExpr.c 0.018)))),
  ("pride", (GPred.conj (GPred.lt (GExpr.lz 152) (GExpr.c (-0.08))) (GPred.gt (GExpr.abs (GExpr.sub (GExpr.lx 61) (GExpr.lx 291))) (GExpr.c 0.055)))),
  ("embarrassment", (GPred.conj (GPred.gt (GExpr.ly 10) (GExpr.add (GExpr.ly 152) (GExpr.c 0.05))) (GPred.lt (GExpr.abs (GExpr.sub (GExpr.ly 159) (GExpr.ly 145))) (GExpr.c 0.01)))),
  ("guilt", (GPred.conj (GPred.gt (GExpr.ly 10) (GExpr.add (GExpr.ly 152) (GExpr.c 0.06))) (GPred.lt (GExpr.abs (GExpr.sub (GExpr.lx 61) (GExpr.lx 291))) (GExpr.c 0.02)))),
  ("jealousy", (GPred.conj (GPred.lt (GExpr.abs (GExpr.sub (GExpr.lx 65) (GExpr.lx 295))) (GExpr.c 0.02)) (GPred.gt (GExpr.ly 61) (GExpr.add (GExpr.ly 291) (GExpr.c 0.02))))),
  ("envy", (GPred.conj (GPred.lt (GExpr.abs (GExpr.sub (GExpr.ly 159) (GExpr.ly 145))) (GExpr.c 0.008)) (GPred.lt (GExpr.abs (GExpr.sub (GExpr.lx 65) (GExpr.lx 295))) (GExpr.c 0.03)))),
  ("longing", (GPred.conj (GPred.gt (GExpr.abs (GExpr.sub (GExpr.ly 159) (GExpr.ly 145))) (GExpr.c 0.02)) (GPred.gt (GExpr.abs (GExpr.sub (GExpr.ly 13) (GExpr.ly 14))) (GExpr.c 0.015)))),
  ("nostalgia", (GPred.conj (GPred.gt (GExpr.abs (GExpr.sub (GExpr.lx 61) (GExpr.lx 291))) (GExpr.c 0.04)) (GPred.gt (GExpr.ly 10) (GExpr.add (GExpr.ly 152) (GExpr.c 0.03))))),
  ("melancholy", (GPred.conj (GPred.gt (GExpr.ly 61) (GExpr.add (GExpr.ly 13) (GExpr.c 0.02))) (GPred.lt (GExpr.abs (GExpr.sub (GExpr.ly 159) (GExpr.ly 145))) (GExpr.c 0.012)))),
  ("serenity", (GPred.conj (GPred.gt (GExpr.abs (GExpr.sub (GExpr.ly 159) (GExpr.ly 145))) (GExpr.c 0.018)) (GPred.gt (GExpr.abs (GExpr.sub (GExpr.ly 13) (GExpr.ly 14))) (GExpr.c 0.008)))),
  ("euphoria", (GPred.conj (GPred.gt (GExpr.abs (GExpr.sub (GExpr.lx 61) (GExpr.lx 291))) (GExpr.c 0.09)) (GPred.gt (GExpr.abs (GExpr.sub (GExpr.ly 159) (GExpr.ly 145))) (GExpr.c 0.03)))),
  ("despair", (GPred.conj (GPred.gt (GExpr.ly 61) (GExpr.add (GExpr.ly 13) (GExpr.c 0.025))) (GPred.lt (GExpr.abs (GExpr.sub (GExpr.ly 159) (GExpr.ly 145))) (GExpr.c 0.005)))),
  ("hope", (GPred.conj (GPred.gt (GExpr.abs (GExpr.sub (GExpr.lx 61) (GExpr.lx 291))) (GExpr.c 0.045)) (GPred.gt (GExpr.sub (GExpr.ly 159) (GExpr.ly 65)) (GExpr.c 0.035)))),
  ("resignation", (GPred.conj (GPred.lt (GExpr.abs (GExpr.sub (GExpr.ly 159) (GExpr.ly 145))) (GExpr.c 0.01)) (GPred.lt (GExpr.abs (GExpr.sub (GExpr.ly 13) (GExpr.ly 14))) (GExpr.c 0.008)))),
  ("defiance", (GPred.conj (GPred.lt (GExpr.lz 152) (GExpr.c (-0.06))) (GPred.lt (GExpr.abs (GExpr.sub (GExpr.lx 65) (GExpr.lx 295))) (GExpr.c 0.025)))),
  ("submission", (GPred.conj (GPred.gt (GExpr.ly 10) (GExpr.add (GExpr.ly 152) (GExpr.c 0.04))) (GPred.lt (GExpr.abs (GExpr.sub (GExpr.ly 159) (GExpr.ly 145))) (GExpr.c 0.008)))),
  ("dominance", (GPred.conj (GPred.lt (GExpr.lz 152) (GExpr.c (-0.07))) (GPred.lt (GExpr.abs (GExpr.sub (GExpr.ly 159) (GExpr.ly 145))) (GExpr.c 0.01)))),
  ("vulnerability", (GPred.conj (GPred.gt (GExpr.abs (GExpr.sub (GExpr.ly 159) (GExpr.ly 145))) (GExpr.c 0.025)) (GPred.gt (GExpr.ly 10) (GExpr.add (GExpr.ly 152) (GExpr.c 0.03))))),
  ("strength", (GPred.conj (GPred.lt (GExpr.abs (GExpr.sub (GExpr.ly 172) (GExpr.ly 397))) (GExpr.c 0.015)) (GPred.lt (GExpr.lz 152) (GExpr.c (-0.04))))),
  ("weakness", (GPred.conj (GPred.gt (GExpr.ly 10) (GExpr.add (GExpr.ly 152) (GExpr.c 0.05))) (GPred.gt (GExpr.abs (GExpr.sub (GExpr.ly 172) (GExpr.ly 397))) (GExpr.c 0.03)))),
  ("alertness", (GPred.conj (GPred.gt (GExpr.abs (GExpr.sub (GExpr.ly 159) (GExpr.ly 145))) (GExpr.c 0.022)) (GPred.gt (GExpr.sub (GExpr.ly 159) (GExpr.ly 65)) (GExpr.c 0.03)))),
  ("drowsiness", (GPred.conj (GPred.lt (GExpr.abs (GExpr.sub (GExpr.ly 159) (GExpr.ly 145))) (GExpr.c 0.006)) (GPred.gt (GExpr.ly 10) (GExpr.add (GExpr.ly 152) (GExpr.c 0.02))))),
  ("intensity", (GPred.conj (GPred.lt (GExpr.abs (GExpr.sub (GExpr.ly 159) (GExpr.ly 145))) (GExpr.c 0.01)) (GPred.lt (GExpr.abs (GExpr.sub (GExpr.lx 65) (GExpr.lx 295))) (GExpr.c 0.02)))),
  ("gentleness", (GPred.conj (GPred.gt (GExpr.abs (GExpr.sub (GExpr.lx 61) (GExpr.lx 291))) (GExpr.c 0.04)) (GPred.gt (GExpr.abs (GExpr.sub (GExpr.ly 159) (GExpr.ly 145))) (GExpr.c 0.015))))]

/-- The gesture table of `app.py` (lines 18-150): each entry pairs the
gesture name with the embedded form of its lambda predicate. -/
def GESTURES : List (String × GPred) :=
  GESTURES_A ++ GESTURES_B ++ GESTURES_C ++ GESTURES_D ++ GESTURES_E

/-- The cooldown constant `cooldown_seconds = 5` of `app.py` line 155. -/
def cooldown_seconds : ℚ := 5

/-- The session-scoped cooldown bookkeeping of `app.py` lines 152-154:
the set `last_detected` and the dict `last_detect_time`.  The dict is
modelled as an association list whose first matching key wins, exactly
the lookup/overwrite behaviour of a Python dict. -/
structure DetectState where
  last_detected : List String
  last_detect_time : List (String × ℚ)
deriving DecidableEq, Repr

/-- The empty state a fresh detection session starts from
(`last_detected = set()`, `last_detect_time = {}`). -/
def initState : DetectState := ⟨[], []⟩

/-- Python's `last_detect_time.get(name, 0)`: the stored last-fire time of a
gesture, defaulting to `0` when the name never fired. -/
def getTime : List (String × ℚ) → String → ℚ
  | [], _ => 0
  | (n, t) :: rest, name => if name = n then t else getTime rest name

/-- The inner detection loop of the webcam path (`app.py` lines 465-473):
for each table entry evaluate the predicate, catch evaluation errors
(`none`) by skipping the entry, and on a geometric hit apply the
cooldown check before reporting the gesture and updating the state. -/
def detectLoop : List (String × GPred) → DetectState → LandmarkFrame → ℚ →
    List String × DetectState
  | [], s, _, _ => ([], s)
  | (name, p) :: rest, s, lm, now =>
    match evalP lm p with
    | some true =>
      if name ∉ s.last_detected ∨
          cooldown_seconds < now - getTime s.last_detect_time name then
        let out := detectLoop rest
          ⟨name :: s.last_detected, (name, now) :: s.last_detect_time⟩ lm now
        (name :: out.1, out.2)
      else detectLoop rest s lm now
    | _ => detectLoop rest s lm now

/-- The session state accumulated by running the webcam loop over a list
of timestamped frames (only the state; outputs are given by
`detectLoop` at each step). -/
def runState (s : DetectState) : List (ℚ × LandmarkFrame) → DetectState
  | [] => s
  | (t, lm) :: rest => runState (detectLoop GESTURES s lm t).2 rest

/-- The outputs of the webcam loop over a list of timestamped frames:
each frame is paired with the gesture names reported for it. -/
def runDetect (s : DetectState) : List (ℚ × LandmarkFrame) → List (ℚ × List String)
  | [] => []
  | (t, lm) :: rest =>
    (t, (detectLoop GESTURES s lm t).1) :: runDetect (detectLoop GESTURES s lm t).2 rest

/-- The image-upload detection loop (`app.py` lines 525-532): no
cooldown, evaluation errors skipped (`except: continue`). -/
def detectImage : List (String × GPred) → LandmarkFrame → List String
  | [], _ => []
  | (name, p) :: rest, lm =>
    match evalP lm p with
    | some true => name :: detectImage rest lm
    | _ => detectImage rest lm

/-- The record produced by the image-upload path (`app.py` lines
534-546): the display string and the stored expressions use only the
first five detected names, while the external describer receives the
full detected list. -/
structure ImageAnalysisRecord where
  displayed : String
  describer_input : String
  saved_expressions : List String
deriving DecidableEq, Repr

/-- The image-upload pipeline of `app.py` lines 523-546 applied to the
landmarks of the detected face. -/
def imageAnalysis (lm : LandmarkFrame) : ImageAnalysisRecord :=
  let detected := detectImage GESTURES lm
  { displayed := String.intercalate ", " (detected.take 5)
    describer_input := String.intercalate ", " detected
    saved_expressions := detected.take 5 }

/-- Number of landmarks a scalar expression needs (one past the largest
index it accesses). -/
def needE : GExpr → Nat
  | .c _ => 0
  | .lx i | .ly i | .lz i => i + 1
  | .add a b | .sub a b | .div a b => max (needE a) (needE b)
  | .abs a => needE a

/-- Number of landmarks a predicate needs. -/
def needP : GPred → Nat
  | .gt a b | .lt a b => max (needE a) (needE b)
  | .conj a b => max (needP a) (needP b)

set_option maxRecDepth 40000 in
/-- The gesture names of the table are pairwise distinct. -/
theorem gestures_names_nodup_aux : (GESTURES.map Prod.fst).Nodup := by decide

/-- A scalar expression whose landmark indices all lie inside the frame
evaluates without error. -/
theorem evalE_isSome (lm : LandmarkFrame) (e : GExpr) (h : needE e ≤ lm.length) :
    (evalE lm e).isSome := by
  induction e with
  | c q => simp [evalE]
  | lx i =>
    simp only [needE] at h
    simp only [evalE]
    rw [List.get?_eq_get (Nat.lt_of_succ_le h)]
    rfl
  | ly i =>
    simp only [needE] at h
    simp only [evalE]
    rw [List.get?_eq_get (Nat.lt_of_succ_le h)]
    rfl
  | lz i =>
    simp only [needE] at h
    simp only [evalE]
    rw [List.get?_eq_get (Nat.lt_of_succ_le h)]
    rfl
  | add a b iha ihb =>
    simp only [needE, max_le_iff] at h
    obtain ⟨va, ha⟩ := Option.isSome_iff_exists.mp (iha h.1)
    obtain ⟨vb, hb⟩ := Option.isSome_iff_exists.mp (ihb h.2)
    simp [evalE, ha, hb]
  | sub a b iha ihb =>
    simp only [needE, max_le_iff] at h
    obtain ⟨va, ha⟩ := Option.isSome_iff_exists.mp (iha h.1)
    obtain ⟨vb, hb⟩ := Option.isSome_iff_exists.mp (ihb h.2)
    simp [evalE, ha, hb]
  | div a b iha ihb =>
    simp only [needE, max_le_iff] at h
    obtain ⟨va, ha⟩ := Option.isSome_iff_exists.mp (iha h.1)
    obtain ⟨vb, hb⟩ := Option.isSome_iff_exists.mp (ihb h.2)
    simp [evalE, ha, hb]
  | abs a ih =>
    simp only [needE] at h
    obtain ⟨va, ha⟩ := Option.isSome_iff_exists.mp (ih h)
    simp [evalE, ha]

/-- A predicate whose landmark indices all lie inside the frame
evaluates without error. -/
theorem evalP_isSome (lm : LandmarkFrame) (p : GPred) (h : needP p ≤ lm.length) :
    (evalP lm p).isSome := by
  induction p with
  | gt a b =>
    simp only [needP, max_le_iff] at h
    obtain ⟨va, ha⟩ := Option.isSome_iff_exists.mp (evalE_isSome lm a h.1)
    obtain ⟨vb, hb⟩ := Option.isSome_iff_exists.mp (evalE_isSome lm b h.2)
    simp [evalP, ha, hb]
  | lt a b =>
    simp only [needP, max_le_iff] at h
    obtain ⟨va, ha⟩ := Option.isSome_iff_exists.mp (evalE_isSome lm a h.1)
    obtain ⟨vb, hb⟩ := Option.isSome_iff_exists.mp (evalE_isSome lm b h.2)
    simp [evalP, ha, hb]
  | conj a b iha ihb =>
    simp only [needP, max_le_iff] at h
    obtain ⟨va, ha⟩ := Option.isSome_iff_exists.mp (iha h.1)
    cases va with
    | false => simp [evalP, ha]
    | true => simp [evalP, ha, ihb h.2]

/-- Every reported gesture name comes from the table. -/
theorem detectLoop_output_subset (gs : List (String × GPred)) (s : DetectState)
    (lm : LandmarkFrame) (now : ℚ) :
    (detectLoop gs s lm now).1 ⊆ gs.map Prod.fst := by
  induction gs generalizing s with
  | nil => intro x hx; simp [detectLoop] at hx
  | cons g rest ih =>
    intro x hx
    obtain ⟨name, p⟩ := g
    simp only [detectLoop] at hx
    cases hev : evalP lm p with
    | none =>
      rw [hev] at hx
      exact List.mem_cons_of_mem _ (ih _ hx)
    | some b =>
      cases b with
      | false =>
        rw [hev] at hx
        exact List.mem_cons_of_mem _ (ih _ hx)
      | true =>
        rw [hev] at hx
        by_cases hc : name ∉ s.last_detected ∨
            cooldown_seconds < now - getTime s.last_detect_time name
        · rw [if_pos hc] at hx
          rcases List.mem_cons.mp hx with rfl | hx
          · exact List.mem_cons_self _ _
          · exact List.mem_cons_of_mem _ (ih _ hx)
        · rw [if_neg hc] at hx
          exact List.mem_cons_of_mem _ (ih _ hx)

/-- A reported gesture name always has a table entry whose predicate
evaluated to `true` on the frame. -/
theorem mem_detectLoop_exists (gs : List (String × GPred)) (s : DetectState)
    (lm : LandmarkFrame) (now : ℚ) (x : String)
    (hx : x ∈ (detectLoop gs s lm now).1) :
    ∃ p, (x, p) ∈ gs ∧ evalP lm p = some true := by
  induction gs generalizing s with
  | nil => simp [detectLoop] at hx
  | cons g rest ih =>
    obtain ⟨name, p⟩ := g
    simp only [detectLoop] at hx
    cases hev : evalP lm p with
    | none =>
      rw [hev] at hx
      obtain ⟨q, hq, ht⟩ := ih _ hx
      exact ⟨q, List.mem_cons_of_mem _ hq, ht⟩
    | some b =>
      cases b with
      | false =>
        rw [hev] at hx
        obtain ⟨q, hq, ht⟩ := ih _ hx
        exact ⟨q, List.mem_cons_of_mem _ hq, ht⟩
      | true =>
        rw [hev] at hx
        by_cases hc : name ∉ s.last_detected ∨
            cooldown_seconds < now - getTime s.last_detect_time name
        · rw [if_pos hc] at hx
          rcases List.mem_cons.mp hx with rfl | hx
          · exact ⟨p, List.mem_cons_self _ _, hev⟩
          · obtain ⟨q, hq, ht⟩ := ih _ hx
            exact ⟨q, List.mem_cons_of_mem _ hq, ht⟩
        · rw [if_neg hc] at hx
          obtain ⟨q, hq, ht⟩ := ih _ hx
          exact ⟨q, List.mem_cons_of_mem _ hq, ht⟩

/-- On a state none of the table names have touched yet (in particular a
fresh session), every entry whose predicate evaluates `true` is
reported. -/
theorem mem_detectLoop_of_true (gs : List (String × GPred)) (s : DetectState)
    (lm : LandmarkFrame) (now : ℚ) (x : String) (p : GPred)
    (hnd : (gs.map Prod.fst).Nodup)
    (hld : ∀ n ∈ gs.map Prod.fst, n ∉ s.last_detected)
    (hmem : (x, p) ∈ gs) (htrue : evalP lm p = some true) :
    x ∈ (detectLoop gs s lm now).1 := by
  induction gs generalizing s with
  | nil => simp at hmem
  | cons g rest ih =>
    obtain ⟨name, q⟩ := g
    simp only [List.map_cons, List.nodup_cons] at hnd
    rcases List.mem_cons.mp hmem with heq | hmem'
    · obtain ⟨rfl, rfl⟩ := Prod.mk.injEq .. ▸ heq
      have hn : x ∉ s.last_detected :=
        hld x (List.mem_cons_self _ _)
      simp only [detectLoop, htrue]
      rw [if_pos (Or.inl hn)]
      exact List.mem_cons_self _ _
    · have hxname : x ∈ rest.map Prod.fst :=
        List.mem_map_of_mem Prod.fst hmem'
      simp only [detectLoop]
      cases hev : evalP lm q with
      | none =>
        exact ih _ hnd.2 (fun n hn => hld n (List.mem_cons_of_mem _ hn)) hmem'
      | some b =>
        cases b with
        | false =>
          exact ih _ hnd.2 (fun n hn => hld n (List.mem_cons_of_mem _ hn)) hmem'
        | true =>
          have hnn : name ∉ s.last_detected := hld name (List.mem_cons_self _ _)
          rw [if_pos (Or.inl hnn)]
          refine List.mem_cons_of_mem _ (ih _ hnd.2 ?_ hmem')
          intro n hn
          simp only [List.mem_cons, not_or]
          constructor
          · rintro rfl
            exact hnd.1 hn
          · exact hld n (List.mem_cons_of_mem _ hn)

/-- The set `last_detected` only grows during a pass. -/
theorem detectLoop_ld_mono (gs : List (String × GPred)) (s : DetectState)
    (lm : LandmarkFrame) (now : ℚ) :
    s.last_detected ⊆ ((detectLoop gs s lm now).2).last_detected := by
  induction gs generalizing s with
  | nil => simp [detectLoop]
  | cons g rest ih =>
    obtain ⟨name, p⟩ := g
    simp only [detectLoop]
    cases hev : evalP lm p with
    | none => exact ih s
    | some b =>
      cases b with
      | false => exact ih s
      | true =>
        by_cases hc : name ∉ s.last_detected ∨
            cooldown_seconds < now - getTime s.last_detect_time name
        · rw [if_pos hc]
          exact fun x hx => ih _ (List.mem_cons_of_mem _ hx)
        · rw [if_neg hc]
          exact ih s


/-- After a pass at time `now`, each stored last-fire time either was
just written (and equals `now`) or is unchanged. -/
theorem detectLoop_getTime (gs : List (String × GPred)) (s : DetectState)
    (lm : LandmarkFrame) (now : ℚ) (x : String) :
    getTime ((detectLoop gs s lm now).2).last_detect_time x = now ∨
    getTime ((detectLoop gs s lm now).2).last_detect_time x =
      getTime s.last_detect_time x := by
  induction gs generalizing s with
  | nil => exact Or.inr rfl
  | cons g rest ih =>
    obtain ⟨name, p⟩ := g
    simp only [detectLoop]
    cases hev : evalP lm p with
    | none => exact ih s
    | some b =>
      cases b with
      | false => exact ih s
      | true =>
        by_cases hc : name ∉ s.last_detected ∨
            cooldown_seconds < now - getTime s.last_detect_time name
        · rw [if_pos hc]
          rcases ih ⟨name :: s.last_detected, (name, now) :: s.last_detect_time⟩ with h | h
          · exact Or.inl h
          · rw [h]
            simp only [getTime]
            by_cases hx : x = name
            · exact Or.inl (if_pos hx)
            · rw [if_neg hx]
              exact Or.inr rfl
        · rw [if_neg hc]
          exact ih s

/-- A gesture reported at time `now` leaves the pass with its name in
`last_detected` and its stored last-fire time equal to `now`. -/
theorem detectLoop_mem_state (gs : List (String × GPred)) (s : DetectState)
    (lm : LandmarkFrame) (now : ℚ) (x : String)
    (hx : x ∈ (detectLoop gs s lm now).1) :
    x ∈ ((detectLoop gs s lm now).2).last_detected ∧
    getTime ((detectLoop gs s lm now).2).last_detect_time x = now := by
  induction gs generalizing s with
  | nil => simp [detectLoop] at hx
  | cons g rest ih =>
    obtain ⟨name, p⟩ := g
    simp only [detectLoop] at hx ⊢
    cases hev : evalP lm p with
    | none =>
      rw [hev] at hx
      exact ih _ hx
    | some b =>
      cases b with
      | false =>
        rw [hev] at hx
        exact ih _ hx
      | true =>
        rw [hev] at hx
        by_cases hc : name ∉ s.last_detected ∨
            cooldown_seconds < now - getTime s.last_detect_time name
        · rw [if_pos hc] at hx ⊢
          rcases List.mem_cons.mp hx with rfl | hx
          · constructor
            · exact detectLoop_ld_mono _ _ _ _ (List.mem_cons_self _ _)
            · rcases detectLoop_getTime rest
                ⟨x :: s.last_detected, (x, now) :: s.last_detect_time⟩ lm now x with h | h
              · exact h
              · rw [h]
                simp [getTime]
          · exact ih _ hx
        · rw [if_neg hc] at hx ⊢
          exact ih _ hx

/-- Cooldown suppression: a name in `last_detected` whose stored time is
within the cooldown window is never reported, whatever its predicate
evaluates to. -/
theorem detectLoop_suppressed (gs : List (String × GPred)) (s : DetectState)
    (lm : LandmarkFrame) (now : ℚ) (x : String)
    (h1 : x ∈ s.last_detected)
    (h2 : ¬ cooldown_seconds < now - getTime s.last_detect_time x) :
    x ∉ (detectLoop gs s lm now).1 := by
  induction gs generalizing s with
  | nil => simp [detectLoop]
  | cons g rest ih =>
    obtain ⟨name, p⟩ := g
    simp only [detectLoop]
    cases hev : evalP lm p with
    | none => exact ih s h1 h2
    | some b =>
      cases b with
      | false => exact ih s h1 h2
      | true =>
        by_cases hc : name ∉ s.last_detected ∨
            cooldown_seconds < now - getTime s.last_detect_time name
        · rw [if_pos hc]
          have hne : x ≠ name := by
            rintro rfl
            rcases hc with hc | hc
            · exact hc h1
            · exact h2 hc
          intro hx
          rcases List.mem_cons.mp hx with rfl | hx
          · exact hne rfl
          · refine ih ⟨name :: s.last_detected, (name, now) :: s.last_detect_time⟩ ?_ ?_ hx
            · exact List.mem_cons_of_mem _ h1
            · simpa [getTime, if_neg hne] using h2
        · rw [if_neg hc]
          exact ih s h1 h2

/-- A gesture reported from state `s` must have passed the cooldown
check against `s` (the table names are distinct, so the check it passed
is the one on `s`, not on a state another entry wrote). -/
theorem detectLoop_fire_cond (gs : List (String × GPred)) (s : DetectState)
    (lm : LandmarkFrame) (now : ℚ) (x : String)
    (hnd : (gs.map Prod.fst).Nodup)
    (hx : x ∈ (detectLoop gs s lm now).1) :
    x ∉ s.last_detected ∨ cooldown_seconds < now - getTime s.last_detect_time x := by
  induction gs generalizing s with
  | nil => simp [detectLoop] at hx
  | cons g rest ih =>
    obtain ⟨name, p⟩ := g
    simp only [List.map_cons, List.nodup_cons] at hnd
    simp only [detectLoop] at hx
    cases hev : evalP lm p with
    | none =>
      rw [hev] at hx
      exact ih _ hnd.2 hx
    | some b =>
      cases b with
      | false =>
        rw [hev] at hx
        exact ih _ hnd.2 hx
      | true =>
        rw [hev] at hx
        by_cases hc : name ∉ s.last_detected ∨
            cooldown_seconds < now - getTime s.last_detect_time name
        · rw [if_pos hc] at hx
          rcases List.mem_cons.mp hx with rfl | hx
          · exact hc
          · have hxname : x ∈ rest.map Prod.fst := by
              obtain ⟨q, hq, -⟩ := mem_detectLoop_exists _ _ _ _ _ hx
              exact List.mem_map_of_mem Prod.fst hq
            have hne : x ≠ name := by
              rintro rfl
              exact hnd.1 hxname
            rcases ih _ hnd.2 hx with h | h
            · simp only [List.mem_cons, not_or] at h
              exact Or.inl h.2
            · rw [show getTime ((name, now) :: s.last_detect_time) x =
                  getTime s.last_detect_time x by simp [getTime, if_neg hne]] at h
              exact Or.inr h
        · rw [if_neg hc] at hx
          exact ih _ hnd.2 hx

/-- Running further frames, all of time `≥ t`, keeps a name that is in
`last_detected` with stored time `≥ t` in that condition. -/
theorem runState_keep (l : List (ℚ × LandmarkFrame)) (s : DetectState) (t : ℚ) (x : String)
    (hts : ∀ e ∈ l, t ≤ e.1)
    (h1 : x ∈ s.last_detected)
    (h2 : t ≤ getTime s.last_detect_time x) :
    x ∈ (runState s l).last_detected ∧ t ≤ getTime (runState s l).last_detect_time x := by
  induction l generalizing s with
  | nil => exact ⟨h1, h2⟩
  | cons e rest ih =>
    obtain ⟨tm, fm⟩ := e
    simp only [runState]
    refine ih _ (fun e he => hts e (List.mem_cons_of_mem _ he)) ?_ ?_
    · exact detectLoop_ld_mono _ _ _ _ h1
    · rcases detectLoop_getTime GESTURES s fm tm x with h | h
      · rw [h]
        exact hts (tm, fm) (List.mem_cons_self _ _)
      · rw [h]
        exact h2

/-- The image loop reports exactly the names whose predicate evaluates
`true`, in table order. -/
theorem detectImage_eq_filter (gs : List (String × GPred)) (lm : LandmarkFrame) :
    detectImage gs lm =
      (gs.filter fun g => decide (evalP lm g.2 = some true)).map Prod.fst := by
  induction gs with
  | nil => simp [detectImage]
  | cons g rest ih =>
    obtain ⟨name, p⟩ := g
    simp only [detectImage]
    cases hev : evalP lm p with
    | none => simp [List.filter_cons, hev, ih]
    | some b =>
      cases b with
      | false => simp [List.filter_cons, hev, ih]
      | true => simp [List.filter_cons, hev, ih]

/-- Any entry whose predicate evaluates `true` is reported by the image
loop. -/
theorem mem_detectImage_of_true (gs : List (String × GPred)) (lm : LandmarkFrame)
    (x : String) (p : GPred) (hmem : (x, p) ∈ gs) (ht : evalP lm p = some true) :
    x ∈ detectImage gs lm := by
  rw [detectImage_eq_filter]
  refine List.mem_map_of_mem Prod.fst (List.mem_filter.mpr ⟨hmem, ?_⟩)
  simp [ht]

/-- The `y`-coordinate pattern of the concrete test frame `F160`. -/
def f160y (i : Nat) : ℚ :=
  if i = 14 then 0.505 else if i = 65 then 0.3 else if i = 145 then 0.37
  else if i = 151 then 0.6 else if i = 159 then 0.39 else 0.5

/-- A concrete 160-landmark frame: every landmark sits at
`(0.3, 0.5, 0)` except that `lm[159].y - lm[65].y = 0.09` (an eyebrow
gap above both the 0.06 and the 0.08 threshold), the left eye is
moderately open (`|lm[159].y - lm[145].y| = 0.02`), the lips almost
closed (`|lm[13].y - lm[14].y| = 0.005`) and the forehead gap
`|lm[10].y - lm[151].y| = 0.1`. -/
def F160 : LandmarkFrame := (List.range 160).map (fun i => ⟨0.3, f160y i, 0⟩)

theorem F160_get (i : Nat) :
    F160[i]? = if i < 160 then some ⟨0.3, f160y i, 0⟩ else none := by
  by_cases h : i < 160
  · rw [if_pos h, F160, List.getElem?_map, List.getElem?_range h, Option.map_some']
  · rw [if_neg h, List.getElem?_eq_none]
    simp only [F160, List.length_map, List.length_range]
    omega

/-- A concrete 478-landmark frame with every landmark at the origin. -/
def Fzero : LandmarkFrame := (List.range 478).map (fun _ => ⟨0, 0, 0⟩)

theorem Fzero_get (i : Nat) :
    Fzero[i]? = if i < 478 then some ⟨0, 0, 0⟩ else none := by
  by_cases h : i < 478
  · rw [if_pos h, Fzero, List.getElem?_map, List.getElem?_range h, Option.map_some']
  · rw [if_neg h, List.getElem?_eq_none]
    simp only [Fzero, List.length_map, List.length_range]
    omega

theorem F160_length : F160.length = 160 := by
  simp only [F160, List.length_map, List.length_range]

theorem Fzero_length : Fzero.length = 478 := by
  simp only [Fzero, List.length_map, List.length_range]

/-- On `F160` the "raised left eyebrow" predicate fires
(`0.39 - 0.3 = 0.09 > 0.06`). -/
theorem F160_rle_true :
    evalP F160 (GPred.gt (GExpr.sub (GExpr.ly 159) (GExpr.ly 65)) (GExpr.c 0.06)) =
      some true := by
  norm_num [evalP, evalE, List.get?_eq_getElem?, F160_get, f160y]

/-- On `F160` the "eyebrow flash" predicate fires as well
(`0.09 > 0.08`). -/
theorem F160_flash_true :
    evalP F160 (GPred.gt (GExpr.sub (GExpr.ly 159) (GExpr.ly 65)) (GExpr.c 0.08)) =
      some true := by
  norm_num [evalP, evalE, List.get?_eq_getElem?, F160_get, f160y]

/-- On `F160` evaluating the "raised right eyebrow" predicate raises
(`lm[386]` is out of range for a 160-landmark frame). -/
theorem F160_rre_none :
    evalP F160 (GPred.gt (GExpr.sub (GExpr.ly 386) (GExpr.ly 295)) (GExpr.c 0.06)) =
      none := by
  norm_num [evalP, evalE, List.get?_eq_getElem?, F160_get, f160y]

/-- The eyebrow gap of `F160` is exactly `0.09`. -/
theorem F160_gap :
    evalE F160 (GExpr.sub (GExpr.ly 159) (GExpr.ly 65)) = some 0.09 := by
  norm_num [evalE, List.get?_eq_getElem?, F160_get, f160y]

/-- Modelled from the spec: `video_analyzer.VideoEmotionAnalyzer` is not
among the sources (only its callers in `app.py` and
`backend/server.py` are), so the significance score follows spec
§4.3: the Jaccard-style distance `1 - |A ∩ B| / |A ∪ B|` over
gesture-name sets, and `0` when both sets are empty. -/
def significance_score (curr baseline : Finset String) : ℚ :=
  if curr ∪ baseline = ∅ then 0
  else 1 - ((curr ∩ baseline).card : ℚ) / ((curr ∪ baseline).card : ℚ)

/-- Modelled from the spec: the significance decision of spec §4.3 —
both sets empty means "no expression, no change — not significant";
otherwise a frame is significant when `score ≥ significanceThreshold`.
Returns the decision together with the score. -/
def is_significant (curr baseline : Finset String) (threshold : ℚ) : Bool × ℚ :=
  if curr = ∅ ∧ baseline = ∅ then (false, 0)
  else (decide (threshold ≤ significance_score curr baseline),
    significance_score curr baseline)

/-- A `Moment` of the video pipeline (spec §3). -/
structure Moment where
  timestamp : ℚ
  frame_number : Nat
  expressions : List String
  significance_score : ℚ
  ai_analysis : String
deriving DecidableEq, Repr

/-- One sampled video frame after landmark extraction and gesture
detection: its video timestamp, frame number, whether a face was found,
and the detected gesture names. -/
structure SampledFrame where
  timestamp : ℚ
  frame_number : Nat
  has_face : Bool
  expressions : List String
deriving DecidableEq, Repr

/-- Modelled from the spec: the frame loop of
`VideoEmotionAnalyzer.process_video` (spec §4.3-§4.4).  Frames without
a face are skipped; once `maxAnalyses` moments have been emitted the
loop exits early and no further frame is evaluated for significance;
a significant frame is sent to the external describer (`describe`),
appended as a `Moment`, and replaces the baseline. -/
def processFrames (describe : List String → String) (threshold : ℚ) (maxAnalyses : Nat) :
    List SampledFrame → Finset String → List Moment → List Moment
  | [], _, acc => acc.reverse
  | f :: rest, baseline, acc =>
    if maxAnalyses ≤ acc.length then acc.reverse
    else if f.has_face = false then processFrames describe threshold maxAnalyses rest baseline acc
    else
      let curr := f.expressions.toFinset
      let r := is_significant curr baseline threshold
      if r.1 then
        processFrames describe threshold maxAnalyses rest curr
          ({ timestamp := f.timestamp
             frame_number := f.frame_number
             expressions := f.expressions
             significance_score := r.2
             ai_analysis := describe f.expressions } :: acc)
      else processFrames describe threshold maxAnalyses rest baseline acc

/-- Modelled from the spec: `VideoEmotionAnalyzer.process_video` run
over the sampled frames of one video, starting from an empty baseline
and no emitted moments. -/
def process_video (describe : List String → String) (threshold : ℚ)
    (frames : List SampledFrame) (maxAnalyses : Nat) : List Moment :=
  processFrames describe threshold maxAnalyses frames ∅ []

/-- The running moment count never exceeds the cap. -/
theorem processFrames_length_le (describe : List String → String) (threshold : ℚ)
    (maxAnalyses : Nat) (frames : List SampledFrame) (baseline : Finset String)
    (acc : List Moment) (hacc : acc.length ≤ maxAnalyses) :
    (processFrames describe threshold maxAnalyses frames baseline acc).length ≤
      maxAnalyses := by
  induction frames generalizing baseline acc with
  | nil => simpa [processFrames] using hacc
  | cons f rest ih =>
    simp only [processFrames]
    by_cases hfull : maxAnalyses ≤ acc.length
    · rw [if_pos hfull]
      simpa using hacc
    · rw [if_neg hfull]
      by_cases hface : f.has_face = false
      · rw [if_pos hface]
        exact ih _ _ hacc
      · rw [if_neg hface]
        by_cases hsig : (is_significant f.expressions.toFinset baseline threshold).1 = true
        · rw [if_pos hsig]
          exact ih _ _ (by simp; omega)
        · rw [if_neg hsig]
          exact ih _ _ hacc

/-- An interleaved schedule of frames from two live sessions: the tag
is `true` for session A's frames, `false` for session B's. -/
abbrev SessionEvent := Bool × ℚ × LandmarkFrame

/-- Both sessions driving ONE shared cooldown state — the situation of
`app.py`'s module-level `last_detected` / `last_detect_time` when two
concurrent sessions run in the same interpreter. -/
def runShared (s : DetectState) : List SessionEvent → List (Bool × ℚ × List String)
  | [] => []
  | (tag, t, lm) :: rest =>
    (tag, t, (detectLoop GESTURES s lm t).1) ::
      runShared (detectLoop GESTURES s lm t).2 rest

/-- Each session owning its own cooldown state, as the spec requires:
session A's frames thread `sA`, session B's frames thread `sB`. -/
def runSeparate (sA sB : DetectState) : List SessionEvent → List (Bool × ℚ × List String)
  | [] => []
  | (tag, t, lm) :: rest =>
    if tag then
      (true, t, (detectLoop GESTURES sA lm t).1) ::
        runSeparate (detectLoop GESTURES sA lm t).2 sB rest
    else
      (false, t, (detectLoop GESTURES sB lm t).1) ::
        runSeparate sA (detectLoop GESTURES sB lm t).2 rest

/-- Session A's part of an interleaved output. -/
def projOutA (outs : List (Bool × ℚ × List String)) : List (ℚ × List String) :=
  (outs.filter fun e => e.1).map fun e => e.2

/-- Session A's part of an interleaved schedule. -/
def projEventsA (events : List SessionEvent) : List (ℚ × LandmarkFrame) :=
  (events.filter fun e => e.1).map fun e => e.2

/-- With separate per-session states, session A's outputs over any
interleaved schedule are exactly the outputs of running A's frames
alone. -/
theorem runSeparate_projA (events : List SessionEvent) (sA sB : DetectState) :
    projOutA (runSeparate sA sB events) = runDetect sA (projEventsA events) := by
  induction events generalizing sA sB with
  | nil => simp [runSeparate, projOutA, projEventsA, runDetect]
  | cons e rest ih =>
    obtain ⟨tag, t, lm⟩ := e
    cases tag with
    | true =>
      simp only [runSeparate, if_pos rfl, projOutA, projEventsA, List.filter_cons,
        List.map_cons, runDetect]
      simp only [projOutA, projEventsA] at ih
      simp [ih _ sB, runDetect]
    | false =>
      simp only [runSeparate, Bool.false_eq_true, if_false, projOutA, projEventsA,
        List.filter_cons]
      simp only [projOutA, projEventsA] at ih
      simp [ih sA _]

/-- Running a session over an appended frame list composes. -/
theorem runState_append (s : DetectState) (l1 l2 : List (ℚ × LandmarkFrame)) :
    runState s (l1 ++ l2) = runState (runState s l1) l2 := by
  induction l1 generalizing s with
  | nil => rfl
  | cons e rest ih =>
    obtain ⟨t, lm⟩ := e
    simp only [List.cons_append, runState]
    exact ih _

/-- In a list of pairs with pairwise-distinct keys, a key determines its
value. -/
theorem nodup_key_unique {α β : Type} (l : List (α × β))
    (hnd : (l.map Prod.fst).Nodup) {k : α} {b1 b2 : β}
    (h1 : (k, b1) ∈ l) (h2 : (k, b2) ∈ l) : b1 = b2 := by
  induction l with
  | nil => simp at h1
  | cons a rest ih =>
    simp only [List.map_cons, List.nodup_cons] at hnd
    rcases List.mem_cons.mp h1 with rfl | h1'
    · rcases List.mem_cons.mp h2 with heq | h2'
      · exact (Prod.mk.injEq .. ▸ heq.symm).2
      · exact absurd (List.mem_map_of_mem Prod.fst h2') hnd.1
    · rcases List.mem_cons.mp h2 with rfl | h2'
      · exact absurd (List.mem_map_of_mem Prod.fst h1') hnd.1
      · exact ih hnd.2 h1' h2'

/-- Table membership of the "raised left eyebrow" entry. -/
theorem rle_mem_gestures :
    ("raised left eyebrow",
      GPred.gt (GExpr.sub (GExpr.ly 159) (GExpr.ly 65)) (GExpr.c 0.06)) ∈ GESTURES := by
  unfold GESTURES GESTURES_A GESTURES_B GESTURES_C GESTURES_D GESTURES_E
  simp only [List.cons_append, List.nil_append]
  repeat first
    | exact List.mem_cons_self _ _
    | refine List.mem_cons_of_mem _ ?_

/-- Table membership of the "raised right eyebrow" entry. -/
theorem rre_mem_gestures :
    ("raised right eyebrow",
      GPred.gt (GExpr.sub (GExpr.ly 386) (GExpr.ly 295)) (GExpr.c 0.06)) ∈ GESTURES := by
  unfold GESTURES GESTURES_A GESTURES_B GESTURES_C GESTURES_D GESTURES_E
  simp only [List.cons_append, List.nil_append]
  repeat first
    | exact List.mem_cons_self _ _
    | refine List.mem_cons_of_mem _ ?_

/-- Table membership of the "eyebrow flash" entry. -/
theorem flash_mem_gestures :
    ("eyebrow flash",
      GPred.gt (GExpr.sub (GExpr.ly 159) (GExpr.ly 65)) (GExpr.c 0.08)) ∈ GESTURES := by
  unfold GESTURES GESTURES_A GESTURES_B GESTURES_C GESTURES_D GESTURES_E
  simp only [List.cons_append, List.nil_append]
  repeat first
    | exact List.mem_cons_self _ _
    | refine List.mem_cons_of_mem _ ?_

set_option maxHeartbeats 4000000 in
/-- On `F160` no table predicate other than "raised left eyebrow" and
"eyebrow flash" evaluates to `true`: each evaluates to `false` or (for
indices beyond 159) raises. -/
theorem F160_only_eyebrow_true :
    ∀ g ∈ GESTURES, g.1 ≠ "raised left eyebrow" → g.1 ≠ "eyebrow flash" →
      evalP F160 g.2 ≠ some true := by
  unfold GESTURES GESTURES_A GESTURES_B GESTURES_C GESTURES_D GESTURES_E
  simp only [List.cons_append, List.nil_append, List.forall_mem_cons]
  and_intros
  all_goals try (intro g hg; exact absurd hg (List.not_mem_nil g))
  all_goals intro h1 h2
  all_goals try (exact absurd rfl h1)
  all_goals try (exact absurd rfl h2)
  all_goals try norm_num [evalP, evalE, List.get?_eq_getElem?, F160_get, f160y,
    lt_abs, abs_lt, le_abs, abs_le]
  all_goals exact fun hc => Option.noConfusion hc

/-- C9: Every gesture name in the predicate table is unique: no two
entries of the table share the same name string. -/
theorem gesture_names_unique : (GESTURES.map Prod.fst).Nodup :=
  gestures_names_nodup_aux

/-- C5: The significance score (Jaccard-style distance over
gesture-name sets, 0 when both sets are empty) is symmetric, bounded by
0 and 1, and zero on identical sets, the empty set included. -/
theorem significance_score_symm_bounded (A B : Finset String) :
    significance_score A B = significance_score B A ∧
    0 ≤ significance_score A B ∧ significance_score A B ≤ 1 ∧
    significance_score A A = 0 := by
  have hbase : ∀ C D : Finset String,
      0 ≤ significance_score C D ∧ significance_score C D ≤ 1 := by
    intro C D
    unfold significance_score
    by_cases h : C ∪ D = ∅
    · rw [if_pos h]
      norm_num
    · rw [if_neg h]
      have hpos : 0 < ((C ∪ D).card : ℚ) := by
        have := Finset.card_pos.mpr (Finset.nonempty_iff_ne_empty.mpr h)
        exact_mod_cast this
      have hle : ((C ∩ D).card : ℚ) ≤ ((C ∪ D).card : ℚ) := by
        exact_mod_cast Finset.card_le_card (Finset.inter_subset_union)
      constructor
      · have : ((C ∩ D).card : ℚ) / ((C ∪ D).card : ℚ) ≤ 1 :=
          (div_le_one hpos).mpr hle
        linarith
      · have : 0 ≤ ((C ∩ D).card : ℚ) / ((C ∪ D).card : ℚ) :=
          div_nonneg (by positivity) (le_of_lt hpos)
        linarith
  refine ⟨?_, (hbase A B).1, (hbase A B).2, ?_⟩
  · unfold significance_score
    rw [Finset.union_comm B A, Finset.inter_comm B A]
  · unfold significance_score
    by_cases h : A = (∅ : Finset String)
    · rw [Finset.union_self, if_pos h]
    · rw [Finset.union_self, if_neg h, Finset.inter_self]
      have hpos : ((A.card : ℚ)) ≠ 0 := by
        have := Finset.card_pos.mpr (Finset.nonempty_iff_ne_empty.mpr h)
        positivity
      rw [div_self hpos]
      ring

/-- C6: When both the current and the baseline expression sets are
empty, the significance score is 0 and the frame is not significant,
whatever the threshold (a threshold of 0 included). -/
theorem empty_sets_not_significant (threshold : ℚ) :
    significance_score ∅ ∅ = 0 ∧
    (is_significant ∅ ∅ threshold).1 = false ∧
    (is_significant ∅ ∅ threshold).2 = 0 := by
  refine ⟨?_, ?_, ?_⟩ <;> simp [significance_score, is_significant]

/-- C3: over any video run the number of emitted moments never exceeds
`maxAnalyses`, and once the accumulated moments reach the cap the loop
returns at once — no remaining frame is evaluated for significance. -/
theorem video_budget_monotonic (describe : List String → String) (threshold : ℚ)
    (frames rest : List SampledFrame) (baseline : Finset String) (acc : List Moment)
    (maxAnalyses : Nat) (hacc : maxAnalyses ≤ acc.length) :
    (process_video describe threshold frames maxAnalyses).length ≤ maxAnalyses ∧
    processFrames describe threshold maxAnalyses rest baseline acc = acc.reverse := by
  constructor
  · exact processFrames_length_le _ _ _ _ _ _ (Nat.zero_le _)
  · cases rest with
    | nil => rfl
    | cons f r => simp only [processFrames, if_pos hacc]

/-- C3 witness: a run with more candidate frames than the cap of 3. -/
theorem video_budget_monotonic_witness :
    (process_video (fun _ => "ai")  0.12
        [⟨0, 0, true, ["mouth open"]⟩, ⟨1, 30, true, []⟩, ⟨2, 60, true, ["frown"]⟩,
          ⟨3, 90, true, []⟩, ⟨4, 120, true, ["wide smile"]⟩] 3).length ≤ 3 ∧
    processFrames (fun _ => "ai") 0.12 3
        [⟨5, 150, true, ["mouth open"]⟩] {"frown"}
        [⟨0, 0, ["mouth open"], 1, "ai"⟩, ⟨2, 60, ["frown"], 1, "ai"⟩,
          ⟨4, 120, ["wide smile"], 1, "ai"⟩] =
      [⟨0, 0, ["mouth open"], 1, "ai"⟩, ⟨2, 60, ["frown"], 1, "ai"⟩,
        ⟨4, 120, ["wide smile"], 1, "ai"⟩].reverse :=
  video_budget_monotonic (fun _ => "ai") 0.12
    [⟨0, 0, true, ["mouth open"]⟩, ⟨1, 30, true, []⟩, ⟨2, 60, true, ["frown"]⟩,
      ⟨3, 90, true, []⟩, ⟨4, 120, true, ["wide smile"]⟩]
    [⟨5, 150, true, ["mouth open"]⟩] {"frown"}
    [⟨0, 0, ["mouth open"], 1, "ai"⟩, ⟨2, 60, ["frown"], 1, "ai"⟩,
      ⟨4, 120, ["wide smile"], 1, "ai"⟩] 3 (by simp)

set_option maxRecDepth 40000 in
/-- Every table predicate fits inside a 478-landmark frame (the largest
index accessed is 474). -/
theorem gestures_need_le : ∀ g ∈ GESTURES, needP g.2 ≤ 478 := by decide

/-- C8: on a landmark frame of the expected size (478 points, the
refined MediaPipe mesh), the detector only ever reports names from the
gesture table, and no predicate evaluation raises. -/
theorem detect_safe (lm : LandmarkFrame) (s : DetectState) (now : ℚ)
    (g : String × GPred) (h : lm.length = 478) (hg : g ∈ GESTURES) :
    (detectLoop GESTURES s lm now).1 ⊆ GESTURES.map Prod.fst ∧
    (evalP lm g.2).isSome := by
  constructor
  · exact detectLoop_output_subset _ _ _ _
  · refine evalP_isSome lm g.2 ?_
    rw [h]
    exact gestures_need_le g hg

/-- C8 witness: the all-zero 478-landmark frame and the "frown" entry. -/
theorem detect_safe_witness :
    (detectLoop GESTURES initState Fzero 0).1 ⊆ GESTURES.map Prod.fst ∧
    (evalP Fzero
      ("frown", GPred.lt (GExpr.abs (GExpr.sub (GExpr.lx 61) (GExpr.lx 291)))
        (GExpr.c 0.035)).2).isSome :=
  detect_safe Fzero initState 0 _ Fzero_length (by
    unfold GESTURES GESTURES_A GESTURES_B GESTURES_C GESTURES_D GESTURES_E
    simp only [List.cons_append, List.nil_append]
    repeat first
      | exact List.mem_cons_self _ _
      | refine List.mem_cons_of_mem _ ?_)

/-- C4: a predicate whose evaluation raises on a frame is treated as
not detected — its name is never reported — and the loop continues with
the remaining table entries exactly as if the failing entry were
absent; the failure never escapes the loop. -/
theorem predicate_error_recovered (s : DetectState) (lm : LandmarkFrame) (now : ℚ)
    (name : String) (p : GPred) (rest : List (String × GPred))
    (hmem : (name, p) ∈ GESTURES) (herr : evalP lm p = none) :
    name ∉ (detectLoop GESTURES s lm now).1 ∧
    detectLoop ((name, p) :: rest) s lm now = detectLoop rest s lm now := by
  constructor
  · intro hx
    obtain ⟨q, hq, ht⟩ := mem_detectLoop_exists _ _ _ _ _ hx
    have hqp : q = p := nodup_key_unique GESTURES gestures_names_nodup_aux hq hmem
    rw [hqp, herr] at ht
    exact Option.noConfusion ht
  · simp only [detectLoop, herr]

/-- C4 witness: on the 160-landmark frame `F160` the
"raised right eyebrow" predicate raises (`lm[386]` out of range), is
not reported, and its entry is skipped. -/
theorem predicate_error_recovered_witness :
    "raised right eyebrow" ∉ (detectLoop GESTURES initState F160 0).1 ∧
    detectLoop (("raised right eyebrow",
        GPred.gt (GExpr.sub (GExpr.ly 386) (GExpr.ly 295)) (GExpr.c 0.06)) :: [])
        initState F160 0 =
      detectLoop [] initState F160 0 :=
  predicate_error_recovered initState F160 0 "raised right eyebrow" _ []
    rre_mem_gestures F160_rre_none

/-- C10: in the image-upload path, when more than five predicates fire,
the stored record and the displayed list keep only the first five
detected names in table order, while the external describer receives
the full detected list. -/
theorem image_top5_saved (lm : LandmarkFrame)
    (h : 5 < (detectImage GESTURES lm).length) :
    (imageAnalysis lm).saved_expressions =
      ((GESTURES.filter fun g => decide (evalP lm g.2 = some true)).map
        Prod.fst).take 5 ∧
    (imageAnalysis lm).saved_expressions.length = 5 ∧
    (imageAnalysis lm).saved_expressions = (detectImage GESTURES lm).take 5 ∧
    (imageAnalysis lm).displayed =
      String.intercalate ", " ((detectImage GESTURES lm).take 5) ∧
    (imageAnalysis lm).describer_input =
      String.intercalate ", " (detectImage GESTURES lm) := by
  refine ⟨?_, ?_, rfl, rfl, rfl⟩
  · show (detectImage GESTURES lm).take 5 = _
    rw [detectImage_eq_filter]
  · show ((detectImage GESTURES lm).take 5).length = 5
    rw [List.length_take]
    omega

/-- C10 witness: on the all-zero 478-landmark frame well over five
predicates fire (six are exhibited), so the record keeps five names and
the describer input is built from the full list. -/
theorem image_top5_saved_witness :
    (imageAnalysis Fzero).saved_expressions =
      ((GESTURES.filter fun g => decide (evalP Fzero g.2 = some true)).map
        Prod.fst).take 5 ∧
    (imageAnalysis Fzero).saved_expressions.length = 5 ∧
    (imageAnalysis Fzero).saved_expressions = (detectImage GESTURES Fzero).take 5 ∧
    (imageAnalysis Fzero).displayed =
      String.intercalate ", " ((detectImage GESTURES Fzero).take 5) ∧
    (imageAnalysis Fzero).describer_input =
      String.intercalate ", " (detectImage GESTURES Fzero) :=
  image_top5_saved Fzero (by
    have hsub : ({"frown", "pursed lips", "lip bite", "brow furrow",
        "eye blink left", "eye blink right"} : Finset String) ⊆
        (detectImage GESTURES Fzero).toFinset := by
      intro x hx
      simp only [Finset.mem_insert, Finset.mem_singleton] at hx
      rw [List.mem_toFinset]
      rcases hx with rfl | rfl | rfl | rfl | rfl | rfl <;>
        exact mem_detectImage_of_true GESTURES Fzero _ _
          (by unfold GESTURES GESTURES_A GESTURES_B GESTURES_C GESTURES_D GESTURES_E
              simp only [List.cons_append, List.nil_append]
              repeat first
                | exact List.mem_cons_self _ _
                | refine List.mem_cons_of_mem _ ?_)
          (by norm_num [evalP, evalE, List.get?_eq_getElem?, Fzero_get])
    have hc1 := Finset.card_le_card hsub
    have hc2 : ({"frown", "pursed lips", "lip bite", "brow furrow",
        "eye blink left", "eye blink right"} : Finset String).card = 6 := by decide
    have hc3 := (detectImage GESTURES Fzero).toFinset_card_le
    omega)

/-- C1: cooldown invariant for a live session.  Along any monotone
timestamped run from a fresh session state, if gesture `G` is reported
at the frame at time `t`, then at any later frame at time `tp` it is
reported only when `tp - t` exceeds `cooldown_seconds`; within the
window it is suppressed however the intermediate frames evaluate. -/
theorem cooldown_invariant (pre mid post : List (ℚ × LandmarkFrame))
    (t tp : ℚ) (f fp : LandmarkFrame) (G : String)
    (hmono : (pre ++ (t, f) :: mid ++ (tp, fp) :: post).Pairwise
      (fun a b => a.1 ≤ b.1))
    (hG : G ∈ (detectLoop GESTURES (runState initState pre) f t).1) :
    (tp - t ≤ cooldown_seconds →
      G ∉ (detectLoop GESTURES (runState initState (pre ++ (t, f) :: mid)) fp tp).1) ∧
    (G ∈ (detectLoop GESTURES (runState initState (pre ++ (t, f) :: mid)) fp tp).1 →
      cooldown_seconds < tp - t) := by
  have hrun : runState initState (pre ++ (t, f) :: mid) =
      runState (detectLoop GESTURES (runState initState pre) f t).2 mid := by
    rw [runState_append]
    rfl
  have hsplit := List.pairwise_append.mp hmono
  have hcons : ((t, f) :: mid).Pairwise (fun a b => a.1 ≤ b.1) :=
    (List.pairwise_append.mp hsplit.1).2.1
  have hmid : ∀ e ∈ mid, t ≤ e.1 := (List.pairwise_cons.mp hcons).1
  have hstate := detectLoop_mem_state GESTURES (runState initState pre) f t G hG
  have hkeep := runState_keep mid (detectLoop GESTURES (runState initState pre) f t).2
    t G hmid hstate.1 (le_of_eq hstate.2.symm)
  have key : G ∈ (detectLoop GESTURES
        (runState initState (pre ++ (t, f) :: mid)) fp tp).1 →
      cooldown_seconds < tp - t := by
    intro hin
    rw [hrun] at hin
    rcases detectLoop_fire_cond GESTURES _ fp tp G gestures_names_nodup_aux hin
      with hc | hc
    · exact absurd hkeep.1 hc
    · have := hkeep.2
      linarith
  exact ⟨fun hle hin => absurd (key hin) (not_lt.mpr hle), key⟩

/-- C1 witness: the eyebrow gesture fires at time 0 on `F160`; the same
frame two seconds later (within the 5 s cooldown) cannot report it
again. -/
theorem cooldown_invariant_witness :
    ((2 : ℚ) - 0 ≤ cooldown_seconds →
      "raised left eyebrow" ∉
        (detectLoop GESTURES (runState initState ([] ++ (0, F160) :: [])) F160 2).1) ∧
    ("raised left eyebrow" ∈
        (detectLoop GESTURES (runState initState ([] ++ (0, F160) :: [])) F160 2).1 →
      cooldown_seconds < 2 - 0) :=
  cooldown_invariant [] [] [] 0 2 F160 F160 "raised left eyebrow"
    (by norm_num [List.pairwise_cons])
    (mem_detectLoop_of_true GESTURES (runState initState []) F160 0 _ _
      gestures_names_nodup_aux (by intro n _; simp [runState, initState])
      rle_mem_gestures F160_rle_true)

/-- C2 counterexample: the scenario's precondition is unsatisfiable —
whenever `lm[159].y - lm[65].y = 0.09` the "eyebrow flash" predicate
(threshold 0.08) is true as well, so "every other predicate evaluates
false" holds on no frame; and on the concrete frame `F160` with the
exact 0.09 gap a fresh detection pass does not return the singleton. -/
theorem scenario1_counterexample :
    (¬ ∃ lm : LandmarkFrame,
        evalE lm (GExpr.sub (GExpr.ly 159) (GExpr.ly 65)) = some 0.09 ∧
        ∀ g ∈ GESTURES, g.1 ≠ "raised left eyebrow" → evalP lm g.2 = some false) ∧
    evalE F160 (GExpr.sub (GExpr.ly 159) (GExpr.ly 65)) = some 0.09 ∧
    (detectLoop GESTURES initState F160 0).1 ≠ ["raised left eyebrow"] := by
  refine ⟨?_, F160_gap, ?_⟩
  · rintro ⟨lm, hgap, hall⟩
    have hfl := hall _ flash_mem_gestures (by decide)
    have htrue : evalP lm
        (GPred.gt (GExpr.sub (GExpr.ly 159) (GExpr.ly 65)) (GExpr.c 0.08)) =
        some true := by
      simp only [evalP, hgap]
      norm_num [evalE]
    rw [htrue] at hfl
    simp at hfl
  · intro heq
    have hmem : "eyebrow flash" ∈ (detectLoop GESTURES initState F160 0).1 :=
      mem_detectLoop_of_true _ _ _ _ _ _ gestures_names_nodup_aux
        (by intro n _; simp [initState]) flash_mem_gestures F160_flash_true
    rw [heq] at hmem
    simp at hmem

/-- C2 amended: on a frame where the raised-left-eyebrow predicate is
true, the eyebrow-flash predicate is true (forced whenever the gap is
0.09), and every other table predicate evaluates false or raises, a
fresh detection pass returns exactly the pair
{"raised left eyebrow", "eyebrow flash"}. -/
theorem scenario1_amended (lm : LandmarkFrame) (now : ℚ) (x : String)
    (h1 : evalP lm (GPred.gt (GExpr.sub (GExpr.ly 159) (GExpr.ly 65)) (GExpr.c 0.06)) =
      some true)
    (h2 : evalP lm (GPred.gt (GExpr.sub (GExpr.ly 159) (GExpr.ly 65)) (GExpr.c 0.08)) =
      some true)
    (h3 : ∀ g ∈ GESTURES, g.1 ≠ "raised left eyebrow" → g.1 ≠ "eyebrow flash" →
      evalP lm g.2 ≠ some true) :
    x ∈ (detectLoop GESTURES initState lm now).1 ↔
      (x = "raised left eyebrow" ∨ x = "eyebrow flash") := by
  constructor
  · intro hx
    obtain ⟨p, hp, ht⟩ := mem_detectLoop_exists _ _ _ _ _ hx
    by_contra hcon
    push_neg at hcon
    exact h3 (x, p) hp hcon.1 hcon.2 ht
  · rintro (rfl | rfl)
    · exact mem_detectLoop_of_true _ _ _ _ _ _ gestures_names_nodup_aux
        (by intro n _; simp [initState]) rle_mem_gestures h1
    · exact mem_detectLoop_of_true _ _ _ _ _ _ gestures_names_nodup_aux
        (by intro n _; simp [initState]) flash_mem_gestures h2

/-- C2 amended witness: on `F160` (gap exactly 0.09, all other
predicates false or raising) the fresh pass contains precisely the two
eyebrow gestures. -/
theorem scenario1_amended_witness :
    "raised left eyebrow" ∈ (detectLoop GESTURES initState F160 0).1 ∧
    "eyebrow flash" ∈ (detectLoop GESTURES initState F160 0).1 ∧
    "frown" ∉ (detectLoop GESTURES initState F160 0).1 :=
  ⟨(scenario1_amended F160 0 "raised left eyebrow" F160_rle_true F160_flash_true
      F160_only_eyebrow_true).mpr (Or.inl rfl),
   (scenario1_amended F160 0 "eyebrow flash" F160_rle_true F160_flash_true
      F160_only_eyebrow_true).mpr (Or.inr rfl),
   fun h => by
     have hfr := (scenario1_amended F160 0 "frown" F160_rle_true F160_flash_true
       F160_only_eyebrow_true).mp h
     simp at hfr⟩

/-- C7 counterexample: with the module-global cooldown state of
`app.py` shared between two sessions, session B firing the eyebrow
gesture at time 0 suppresses session A's detection of it one second
later, so A's outputs differ from A running alone. -/
theorem session_interference_counterexample :
    projEventsA [(false, 0, F160), (true, 1, F160)] = [(1, F160)] ∧
    projOutA (runShared initState [(false, 0, F160), (true, 1, F160)]) ≠
      runDetect initState [(1, F160)] := by
  constructor
  · rfl
  · have hshape : projOutA (runShared initState [(false, 0, F160), (true, 1, F160)]) =
        [(1, (detectLoop GESTURES (detectLoop GESTURES initState F160 0).2 F160 1).1)] :=
      rfl
    have hshape2 : runDetect initState [(1, F160)] =
        [(1, (detectLoop GESTURES initState F160 1).1)] := rfl
    rw [hshape, hshape2]
    intro heq
    simp only [List.cons.injEq, Prod.mk.injEq, true_and, and_true] at heq
    have halone : "raised left eyebrow" ∈ (detectLoop GESTURES initState F160 1).1 :=
      mem_detectLoop_of_true _ _ _ _ _ _ gestures_names_nodup_aux
        (by intro n _; simp [initState]) rle_mem_gestures F160_rle_true
    have hB : "raised left eyebrow" ∈ (detectLoop GESTURES initState F160 0).1 :=
      mem_detectLoop_of_true _ _ _ _ _ _ gestures_names_nodup_aux
        (by intro n _; simp [initState]) rle_mem_gestures F160_rle_true
    have hstate := detectLoop_mem_state GESTURES initState F160 0 _ hB
    have hsup : "raised left eyebrow" ∉
        (detectLoop GESTURES (detectLoop GESTURES initState F160 0).2 F160 1).1 := by
      refine detectLoop_suppressed _ _ _ _ _ hstate.1 ?_
      rw [hstate.2]
      norm_num [cooldown_seconds]
    rw [heq] at hsup
    exact hsup halone

/-- C7 amended: when each session owns its own cooldown state, as the
spec requires, session A's outputs over any interleaved schedule equal
the outputs of running A's frames alone — B's activity is invisible to
A. -/
theorem session_isolation_amended (events : List SessionEvent) :
    projOutA (runSeparate initState initState events) =
      runDetect initState (projEventsA events) :=
  runSeparate_projA events initState initState
